import Mathlib

/-!
Shallow embedding of Floor-Gang/utilpkg.

Two source files are embedded:
  * the paginator (`botutil` package): `Paginator`, `Run`, `addReactions`,
    `nextPage`, `previousPage`, `firstPage`, `lastPage`,
    `updatePaginatorMessage`, `close`, `setPageNumber`;
  * `config.go` (`utilpkg` package): `GetConfig`, `genConfig`.

Platform effects (discordgo session calls, the filesystem, YAML) are
modelled by oracle arguments that supply each external call's outcome, and
each operation additionally returns the list of platform calls it issued.
Go runtime panics (out-of-range slice index, nil pointer dereference) are
modelled by the `GoResult.panic` constructor.  Go `int` is modelled by
`Int`; Go errors are modelled by `GoErr` (a `paginatorError` value or a
platform error string).
-/

/-- A discord embed footer; only its text matters to this code. -/
structure MessageEmbedFooter where
  text : String
deriving DecidableEq, Repr

/-- A discord embed.  `content` abstracts all fields other than the footer
(title, description, fields, ...), which this code never writes. -/
structure MessageEmbed where
  content : String
  footer : Option MessageEmbedFooter
deriving DecidableEq, Repr

/-- The sent discord message; only its ID matters to this code. -/
structure Message where
  id : String
deriving DecidableEq, Repr

/-- The five control emojis, in the field order of the Go struct, which is
the order `addReactions` iterates over via reflection. -/
structure ControlEmojis where
  toBegin : String
  backwards : String
  forwards : String
  toEnd : String
  stop : String
deriving DecidableEq, Repr

/-- The `Paginator` struct.  The `s *dg.Session` field is replaced by the
per-call oracle arguments; the other fields are kept.  `user` and `timeOut`
play no role in the embedded operations and are omitted. -/
structure Paginator where
  message : Option Message
  channelID : String
  pages : List MessageEmbed
  controlEmojis : ControlEmojis
  index : Int
  reactionsRemoved : Bool
  active : Bool
deriving DecidableEq, Repr

/-- The `paginatorError` struct. -/
structure paginatorError where
  failingFunction : String
  failingReason : String
deriving DecidableEq, Repr

/-- A Go `error` value as this code produces them: either a
`*paginatorError` or an error bubbled up from the discordgo session. -/
inductive GoErr where
  | pag : paginatorError → GoErr
  | platform : String → GoErr
deriving DecidableEq, Repr

/-- Outcome of running a Go function: a return value, or a runtime panic
(out-of-range index, nil dereference). -/
inductive GoResult (α : Type) where
  | panic : String → GoResult α
  | ret : α → GoResult α
deriving DecidableEq, Repr

/-- A call issued to the discord platform. -/
inductive PCall where
  | sendMessage : String → MessageEmbed → PCall
  | editMessage : String → String → MessageEmbed → PCall
  | reactionAdd : String → String → String → PCall
  | reactionsRemoveAll : String → String → PCall
deriving DecidableEq, Repr

/-- Go slice read `pages[i]` with an `Int` index: `some` the element when
`0 ≤ i < len`, `none` (a runtime panic at the call site) otherwise. -/
def getPage (pages : List MessageEmbed) (i : Int) : Option MessageEmbed :=
  if 0 ≤ i then pages.get? i.toNat else none

/-- `NewPaginator`: the fields it initialises (session, user and timeout
omitted as above). -/
def NewPaginator (channelID : String) (controlEmojis : ControlEmojis) : Paginator :=
  { message := none
    channelID := channelID
    pages := []
    controlEmojis := controlEmojis
    index := 0
    reactionsRemoved := false
    active := false }

/-- `updatePaginatorMessage`: edits the hosted message with embed `e`.
`editResult` is the platform's response to `ChannelMessageEditComplex`
(`none` = success).  Dereferencing a nil `p.message` panics. -/
def updatePaginatorMessage (editResult : Option String) (p : Paginator)
    (e : MessageEmbed) : GoResult (Option GoErr × List PCall) :=
  match p.message with
  | none => .panic "nil message dereference"
  | some m =>
      .ret (editResult.map GoErr.platform, [PCall.editMessage m.id p.channelID e])

/-- `nextPage`, line for line from the source: the guard compares
`p.index` with `len(p.pages)+1`, then increments the index and only then
hands `p.pages[p.index]` to `updatePaginatorMessage`. -/
def nextPage (editResult : Option String) (p : Paginator) :
    GoResult (Paginator × Option GoErr × List PCall) :=
  if p.index = (p.pages.length : Int) + 1 then
    .ret (p, some (.pag ⟨"nextPage", "Page index is already max."⟩), [])
  else
    let p1 : Paginator := { p with index := p.index + 1 }
    match getPage p1.pages p1.index with
    | none => .panic "index out of range"
    | some e =>
        match updatePaginatorMessage editResult p1 e with
        | .panic s => .panic s
        | .ret (err, calls) => .ret (p1, err, calls)

/-- `previousPage`: guard `p.index == 0`, then decrement, then edit. -/
def previousPage (editResult : Option String) (p : Paginator) :
    GoResult (Paginator × Option GoErr × List PCall) :=
  if p.index = 0 then
    .ret (p, some (.pag ⟨"previousPage", "Page index is north."⟩), [])
  else
    let p1 : Paginator := { p with index := p.index - 1 }
    match getPage p1.pages p1.index with
    | none => .panic "index out of range"
    | some e =>
        match updatePaginatorMessage editResult p1 e with
        | .panic s => .panic s
        | .ret (err, calls) => .ret (p1, err, calls)

/-- `firstPage`: returns an error when `p.index == 0` (with the
`previousPage` error text), otherwise sets the index to 0 and edits. -/
def firstPage (editResult : Option String) (p : Paginator) :
    GoResult (Paginator × Option GoErr × List PCall) :=
  if p.index = 0 then
    .ret (p, some (.pag ⟨"previousPage", "Page index is north."⟩), [])
  else
    let p1 : Paginator := { p with index := 0 }
    match getPage p1.pages p1.index with
    | none => .panic "index out of range"
    | some e =>
        match updatePaginatorMessage editResult p1 e with
        | .panic s => .panic s
        | .ret (p1err, calls) => .ret (p1, p1err, calls)

/-- `lastPage`: returns an error when `p.index == 0` (with the
`previousPage` function name and the "already max" text), otherwise sets
the index to `len(p.pages)-1` and edits. -/
def lastPage (editResult : Option String) (p : Paginator) :
    GoResult (Paginator × Option GoErr × List PCall) :=
  if p.index = 0 then
    .ret (p, some (.pag ⟨"previousPage", "Page index is already max."⟩), [])
  else
    let p1 : Paginator := { p with index := (p.pages.length : Int) - 1 }
    match getPage p1.pages p1.index with
    | none => .panic "index out of range"
    | some e =>
        match updatePaginatorMessage editResult p1 e with
        | .panic s => .panic s
        | .ret (err, calls) => .ret (p1, err, calls)

/-- The four navigation operations, for stating interleaving properties. -/
inductive NavOp where
  | next | prev | first | last
deriving DecidableEq, Repr

/-- One navigation step. -/
def navStep (editResult : Option String) (op : NavOp) (p : Paginator) :
    GoResult (Paginator × Option GoErr × List PCall) :=
  match op with
  | .next => nextPage editResult p
  | .prev => previousPage editResult p
  | .first => firstPage editResult p
  | .last => lastPage editResult p

/-- The edge guard of each navigation operation, read off the source:
`nextPage` tests `index == len(pages)+1`, the other three test
`index == 0`.  `true` means the guard passes (no early rejection). -/
def navGuard (op : NavOp) (p : Paginator) : Bool :=
  match op with
  | .next => p.index != (p.pages.length : Int) + 1
  | .prev => p.index != 0
  | .first => p.index != 0
  | .last => p.index != 0

/-- The index each navigation operation commits once its guard passes,
read off the source assignments. -/
def navTarget (op : NavOp) (p : Paginator) : Int :=
  match op with
  | .next => p.index + 1
  | .prev => p.index - 1
  | .first => 0
  | .last => (p.pages.length : Int) - 1

/-- `Run`, up to the point where it blocks on the timeout: rejects when
already active, then when there are no pages; otherwise sends
`p.pages[p.index]` to the channel and, on send success, records the
returned message and sets `active`.  (After this commit the Go code blocks
in a `select` on the timeout and finally returns `p.close()`; that
real-time tail is outside the state transition modelled here.)
`sendResult` is the platform's response to `ChannelMessageSendComplex`. -/
def Run (sendResult : Except String Message) (p : Paginator) :
    GoResult (Paginator × Option GoErr × List PCall) :=
  if p.active then
    .ret (p, some (.pag ⟨"Run", "Paginator is already running."⟩), [])
  else if p.pages.length = 0 then
    .ret (p, some (.pag ⟨"Run", "No pages found in paginator.pages"⟩), [])
  else
    match getPage p.pages p.index with
    | none => .panic "index out of range"
    | some page =>
        match sendResult with
        | .error e =>
            .ret (p, some (.pag ⟨"Run", e⟩), [PCall.sendMessage p.channelID page])
        | .ok msg =>
            .ret ({ p with message := some msg, active := true }, none,
              [PCall.sendMessage p.channelID page])

/-- The emoji fields of `ControlEmojis` in reflection order. -/
def emojiFields (c : ControlEmojis) : List String :=
  [c.toBegin, c.backwards, c.forwards, c.toEnd, c.stop]

/-- The reaction-add loop of `addReactions` over a list of emojis:
stops and returns the first platform error.  `react` gives the platform's
response to `MessageReactionAdd` for each emoji. -/
def addReactionsLoop (react : String → Option String) (channelID messageID : String) :
    List String → Option GoErr × List PCall
  | [] => (none, [])
  | emoji :: rest =>
      match react emoji with
      | some e => (some (.platform e), [PCall.reactionAdd channelID messageID emoji])
      | none =>
          let r := addReactionsLoop react channelID messageID rest
          (r.1, PCall.reactionAdd channelID messageID emoji :: r.2)

/-- `addReactions`: iterates over the `ControlEmojis` fields in order and
adds each reaction to the hosted message.  Defined faithfully, although no
code path of the package ever calls it (`Run` does not). -/
def addReactions (react : String → Option String) (p : Paginator) :
    GoResult (Option GoErr × List PCall) :=
  match p.message with
  | none => .panic "nil message dereference"
  | some m => .ret (addReactionsLoop react p.channelID m.id (emojiFields p.controlEmojis))

/-- `close`: sets `active` to false; if reactions were already removed,
returns nil; otherwise issues `MessageReactionsRemoveAll` and records the
removal only when that call succeeds.  `removeResult` is the platform's
response (`none` = success). -/
def close (removeResult : Option String) (p : Paginator) :
    GoResult (Paginator × Option GoErr × List PCall) :=
  let p1 : Paginator := { p with active := false }
  if p1.reactionsRemoved then
    .ret (p1, none, [])
  else
    match p1.message with
    | none => .panic "nil message dereference"
    | some m =>
        match removeResult with
        | none =>
            .ret ({ p1 with reactionsRemoved := true }, none,
              [PCall.reactionsRemoveAll p1.channelID m.id])
        | some e =>
            .ret (p1, some (.platform e), [PCall.reactionsRemoveAll p1.channelID m.id])

/-- A sequence of `close` calls, one platform response per call,
accumulating the issued platform calls. -/
def closeSeq (responses : List (Option String)) (p : Paginator) :
    GoResult (Paginator × List PCall) :=
  match responses with
  | [] => .ret (p, [])
  | r :: rs =>
      match close r p with
      | .panic s => .panic s
      | .ret (p1, _, calls) =>
          match closeSeq rs p1 with
          | .panic s => .panic s
          | .ret (p2, calls2) => .ret (p2, calls ++ calls2)

/-- Whether a platform call is a `MessageReactionsRemoveAll`. -/
def isRemoveCall : PCall → Bool
  | .reactionsRemoveAll _ _ => true
  | _ => false

/-- Whether a platform call is a `MessageReactionAdd`. -/
def isAddCall : PCall → Bool
  | .reactionAdd _ _ _ => true
  | _ => false

/-- Number of reaction-removal calls in a trace. -/
def countRemovals (l : List PCall) : Nat := (l.filter isRemoveCall).length

/-- Number of reaction-add calls in a trace. -/
def countAdds (l : List PCall) : Nat := (l.filter isAddCall).length

/-- Length of the prefix of a close-response sequence up to and including
the first success (`none`); the whole length when every response fails. -/
def throughFirstSuccess : List (Option String) → Nat
  | [] => 0
  | none :: _ => 1
  | some _ :: rs => 1 + throughFirstSuccess rs

/-- The footer text `fmt.Sprintf("%d/%d", p.index+1, len(p.pages))`. -/
def footerText (i : Int) (n : Nat) : String :=
  toString (i + 1) ++ "/" ++ toString n

/-- Overwrite an embed's footer with the page-number footer. -/
def setFooter (i : Int) (n : Nat) (e : MessageEmbed) : MessageEmbed :=
  { e with footer := some ⟨footerText i n⟩ }

/-- `setPageNumber`: errors on an empty page list; otherwise sets the
footer of `every` page in `p.pages` to `"{index+1}/{len(pages)}"`. -/
def setPageNumber (p : Paginator) : Paginator × Option GoErr :=
  if p.pages.length = 0 then
    (p, some (.pag ⟨"setPageNumber", "No pages found in paginator.pages"⟩))
  else
    ({ p with pages := p.pages.map (setFooter p.index p.pages.length) }, none)

/-- `genConfig` (config.go): marshals the reference value and writes it;
returns the marshal error, the write error, or the sentinel
`errors.New("generated a new default configuration")`.  `marshalResult`
and `writeErr` are the YAML/filesystem oracle responses. -/
def genConfig (marshalResult : Except String String) (writeErr : Option String) :
    Option String :=
  match marshalResult with
  | .error e => some e
  | .ok _ =>
      match writeErr with
      | some e => some e
      | none => some "generated a new default configuration"

/-- `GetConfig` (config.go): when `os.Stat` fails it generates a default
config; otherwise it reads the file, propagating a read error, and then
DISCARDS the `yaml.Unmarshal` error (`_ = yaml.Unmarshal(file, output)`),
returning nil.  `statErr`/`readResult`/`unmarshalErr` are the
filesystem/YAML oracle responses; `unmarshalErr` is the discarded one. -/
def GetConfig (statErr : Option String) (readResult : Except String String)
    (marshalResult : Except String String) (writeErr : Option String)
    (unmarshalErr : Option String) : Option String :=
  match statErr with
  | some _ => genConfig marshalResult writeErr
  | none =>
      match readResult with
      | .error e => some e
      | .ok _ => none

/-- Sample embeds and a sample paginator used by concrete evaluations. -/
def embedA : MessageEmbed := { content := "A", footer := none }

/-- Sample embed B. -/
def embedB : MessageEmbed := { content := "B", footer := none }

/-- Sample embed C. -/
def embedC : MessageEmbed := { content := "C", footer := none }

/-- Default control emojis of the Go struct tags. -/
def defaultEmojis : ControlEmojis :=
  { toBegin := ":tack_previous:"
    backwards := ":rewind:"
    forwards := ":fast_forward:"
    toEnd := ":track_next:"
    stop := ":stop_button:" }

/-- A running paginator hosting pages `ps` at index `i`. -/
def runningPag (ps : List MessageEmbed) (i : Int) : Paginator :=
  { message := some ⟨"msg1"⟩
    channelID := "chan1"
    pages := ps
    controlEmojis := defaultEmojis
    index := i
    reactionsRemoved := false
    active := true }

/-- Claim C1 (code bug).  The bounds invariant fails: from the reachable
in-range state with one page and index 0 (so index must stay in `[0, 0]`),
`next` does not hit its guard (which tests `index == len(pages)+1` instead
of `len(pages)-1`), increments the index to 1 = `len(pages)`, and panics
reading `pages[1]` — the index escapes `[0, len(pages)-1]`. -/
theorem c1_next_escapes_bounds :
    (runningPag [embedA] 0).index = 0 ∧
    (runningPag [embedA] 0).pages.length = 1 ∧
    (runningPag [embedA] 0).active = true ∧
    navStep none NavOp.next (runningPag [embedA] 0) = .panic "index out of range" := by
  decide

/-- Claim C2 (code bug).  With pages `[A, B, C]` starting at index 0,
`next` succeeds twice reaching index 2, but the third `next` is NOT
rejected: the guard tests `index == pageCount+1` instead of
`pageCount-1`, so the index becomes 3 and `pages[3]` panics. -/
theorem c2_third_next_panics_instead_of_rejecting :
    nextPage none (runningPag [embedA, embedB, embedC] 0) =
      .ret (runningPag [embedA, embedB, embedC] 1, none,
        [PCall.editMessage "msg1" "chan1" embedB]) ∧
    nextPage none (runningPag [embedA, embedB, embedC] 1) =
      .ret (runningPag [embedA, embedB, embedC] 2, none,
        [PCall.editMessage "msg1" "chan1" embedC]) ∧
    nextPage none (runningPag [embedA, embedB, embedC] 2) =
      .panic "index out of range" := by
  decide

/-- Claim C3 (counterexample).  On a paginator with the non-empty page
list `[A, B]` and index 0, `first` returns an error (the copy-pasted
`previousPage`/"Page index is north." one) even though the claim allows an
error only for an empty page set. -/
theorem c3_first_errors_on_nonempty_pages :
    (runningPag [embedA, embedB] 0).pages ≠ [] ∧
    firstPage none (runningPag [embedA, embedB] 0) =
      .ret (runningPag [embedA, embedB] 0,
        some (.pag ⟨"previousPage", "Page index is north."⟩), []) := by
  decide

/-- Claim C3 (amended).  `first` returns an error exactly when the current
index is already 0, leaving the state unchanged; when the index is nonzero
(and page 0 and the hosted message exist) it sets the index to 0 and edits
the message.  It performs no empty-page check. -/
theorem c3_first_behaviour (p : Paginator) (editR : Option String) (m : Message)
    (e : MessageEmbed) (hm : p.message = some m) (he : getPage p.pages 0 = some e) :
    (p.index = 0 → firstPage editR p =
      .ret (p, some (.pag ⟨"previousPage", "Page index is north."⟩), [])) ∧
    (p.index ≠ 0 → firstPage editR p =
      .ret ({ p with index := 0 }, editR.map GoErr.platform,
        [PCall.editMessage m.id p.channelID e])) := by
  constructor
  · intro h0
    simp [firstPage, h0]
  · intro hne
    simp [firstPage, hne, he, updatePaginatorMessage, hm]

/-- Claim C3 witness: the amended theorem at index 1 over pages `[A, B]`. -/
theorem c3_first_behaviour_witness :
    ((runningPag [embedA, embedB] 1).index = 0 → firstPage none (runningPag [embedA, embedB] 1) =
      .ret (runningPag [embedA, embedB] 1,
        some (.pag ⟨"previousPage", "Page index is north."⟩), [])) ∧
    ((runningPag [embedA, embedB] 1).index ≠ 0 → firstPage none (runningPag [embedA, embedB] 1) =
      .ret ({ runningPag [embedA, embedB] 1 with index := 0 },
        Option.map GoErr.platform none,
        [PCall.editMessage "msg1" "chan1" embedA])) :=
  c3_first_behaviour (runningPag [embedA, embedB] 1) none ⟨"msg1"⟩ embedA rfl (by decide)

/-- Claim C4 (code bug).  `last` on pages `[A, B]` at index 0 is rejected
with "Page index is already max." — contradicting its own error text (the
index is 0, not max) — instead of setting the index to `pageCount-1 = 1`
as the claim states. -/
theorem c4_last_rejected_at_index_zero :
    lastPage none (runningPag [embedA, embedB] 0) =
      .ret (runningPag [embedA, embedB] 0,
        some (.pag ⟨"previousPage", "Page index is already max."⟩), []) ∧
    (runningPag [embedA, embedB] 0).index = 0 := by
  decide

/-- Claim C5 (counterexample).  `next` from index 0 over `[A, B]` with a
failing message edit returns the platform error, yet the index has already
been committed to 1: the edit failure does not leave the index unchanged. -/
theorem c5_failed_edit_moves_index :
    nextPage (some "network error") (runningPag [embedA, embedB] 0) =
      .ret (runningPag [embedA, embedB] 1, some (.platform "network error"),
        [PCall.editMessage "msg1" "chan1" embedB]) ∧
    (runningPag [embedA, embedB] 1).index ≠ (runningPag [embedA, embedB] 0).index := by
  decide

/-- Claim C5 (amended).  For EVERY navigation operation (`next`,
`previous`, `first`, `last`) whose edge guard passes, the new index is
committed BEFORE the target page is handed to the Message Synchronizer:
a failed edit surfaces the platform error while the index keeps its new
value. -/
theorem c5_index_committed_before_edit (op : NavOp) (p : Paginator) (m : Message)
    (e : MessageEmbed) (err : String) (hm : p.message = some m)
    (hguard : navGuard op p = true)
    (hg : getPage p.pages (navTarget op p) = some e) :
    navStep (some err) op p =
      .ret ({ p with index := navTarget op p }, some (.platform err),
        [PCall.editMessage m.id p.channelID e]) := by
  cases op with
  | next =>
      simp only [navGuard, bne_iff_ne] at hguard
      simp only [navTarget] at hg ⊢
      simp [navStep, nextPage, hguard, hg, updatePaginatorMessage, hm]
  | prev =>
      simp only [navGuard, bne_iff_ne] at hguard
      simp only [navTarget] at hg ⊢
      simp [navStep, previousPage, hguard, hg, updatePaginatorMessage, hm]
  | first =>
      simp only [navGuard, bne_iff_ne] at hguard
      simp only [navTarget] at hg ⊢
      simp [navStep, firstPage, hguard, hg, updatePaginatorMessage, hm]
  | last =>
      simp only [navGuard, bne_iff_ne] at hguard
      simp only [navTarget] at hg ⊢
      simp [navStep, lastPage, hguard, hg, updatePaginatorMessage, hm]

/-- Claim C5 witness: the amended theorem at all four operations, each
with a failing edit — `next` on `[A, B]` from index 0, and `previous`,
`first`, `last` on `[A, B]` from index 1. -/
theorem c5_index_committed_before_edit_witness :
    navStep (some "boom") NavOp.next (runningPag [embedA, embedB] 0) =
      .ret ({ runningPag [embedA, embedB] 0 with
          index := navTarget NavOp.next (runningPag [embedA, embedB] 0) },
        some (.platform "boom"), [PCall.editMessage "msg1" "chan1" embedB]) ∧
    navStep (some "boom") NavOp.prev (runningPag [embedA, embedB] 1) =
      .ret ({ runningPag [embedA, embedB] 1 with
          index := navTarget NavOp.prev (runningPag [embedA, embedB] 1) },
        some (.platform "boom"), [PCall.editMessage "msg1" "chan1" embedA]) ∧
    navStep (some "boom") NavOp.first (runningPag [embedA, embedB] 1) =
      .ret ({ runningPag [embedA, embedB] 1 with
          index := navTarget NavOp.first (runningPag [embedA, embedB] 1) },
        some (.platform "boom"), [PCall.editMessage "msg1" "chan1" embedA]) ∧
    navStep (some "boom") NavOp.last (runningPag [embedA, embedB] 1) =
      .ret ({ runningPag [embedA, embedB] 1 with
          index := navTarget NavOp.last (runningPag [embedA, embedB] 1) },
        some (.platform "boom"), [PCall.editMessage "msg1" "chan1" embedB]) :=
  ⟨c5_index_committed_before_edit NavOp.next (runningPag [embedA, embedB] 0)
      ⟨"msg1"⟩ embedB "boom" rfl (by decide) (by decide),
   c5_index_committed_before_edit NavOp.prev (runningPag [embedA, embedB] 1)
      ⟨"msg1"⟩ embedA "boom" rfl (by decide) (by decide),
   c5_index_committed_before_edit NavOp.first (runningPag [embedA, embedB] 1)
      ⟨"msg1"⟩ embedA "boom" rfl (by decide) (by decide),
   c5_index_committed_before_edit NavOp.last (runningPag [embedA, embedB] 1)
      ⟨"msg1"⟩ embedB "boom" rfl (by decide) (by decide)⟩

/-- Claim C6.  `Run` on an active paginator fails with the AlreadyRunning
error, and on an inactive paginator with no pages fails with the NoPages
error; in both cases the state is returned unchanged and no platform call
is issued. -/
theorem c6_run_failures_have_no_side_effects (p : Paginator)
    (sr : Except String Message) :
    (p.active = true →
      Run sr p = .ret (p, some (.pag ⟨"Run", "Paginator is already running."⟩), [])) ∧
    (p.active = false → p.pages = [] →
      Run sr p = .ret (p, some (.pag ⟨"Run", "No pages found in paginator.pages"⟩), [])) := by
  constructor
  · intro h
    simp [Run, h]
  · intro h hp
    simp [Run, h, hp]

/-- Claim C6 witness: both failure branches at concrete paginators. -/
theorem c6_run_failures_witness :
    Run (Except.ok ⟨"m2"⟩) (runningPag [embedA] 0) =
      .ret (runningPag [embedA] 0,
        some (.pag ⟨"Run", "Paginator is already running."⟩), []) ∧
    Run (Except.ok ⟨"m2"⟩) (NewPaginator "chan1" defaultEmojis) =
      .ret (NewPaginator "chan1" defaultEmojis,
        some (.pag ⟨"Run", "No pages found in paginator.pages"⟩), []) :=
  ⟨(c6_run_failures_have_no_side_effects (runningPag [embedA] 0) (Except.ok ⟨"m2"⟩)).1 rfl,
   (c6_run_failures_have_no_side_effects (NewPaginator "chan1" defaultEmojis)
      (Except.ok ⟨"m2"⟩)).2 rfl rfl⟩

/-- Claim C7 (code bug).  A successful `Run` on a fresh one-page paginator
sends page 0, records the returned message and sets `active`, but its
platform trace contains ZERO reaction-add calls: `Run` never invokes
`addReactions` (dead code; the source's own checklist leaves `Run`
unticked), while the claim requires one `addReaction` per control emoji. -/
theorem c7_run_never_adds_reactions :
    Run (Except.ok ⟨"m1"⟩) { NewPaginator "chan1" defaultEmojis with pages := [embedA] } =
      .ret ({ NewPaginator "chan1" defaultEmojis with
                pages := [embedA], message := some ⟨"m1"⟩, active := true },
        none, [PCall.sendMessage "chan1" embedA]) ∧
    countAdds [PCall.sendMessage "chan1" embedA] = 0 ∧
    (emojiFields defaultEmojis).length = 5 := by
  decide

/-- Claim C8 (counterexample).  From a running paginator whose first
removal attempt fails with a platform error, a second `close` re-issues
the reaction-removal call: two `close` calls issue two removal calls, not
at most one. -/
theorem c8_failed_removal_is_reissued :
    closeSeq [some "err1", some "err2"] (runningPag [embedA] 0) =
      .ret ({ runningPag [embedA] 0 with active := false },
        [PCall.reactionsRemoveAll "chan1" "msg1",
         PCall.reactionsRemoveAll "chan1" "msg1"]) ∧
    ¬ countRemovals
        [PCall.reactionsRemoveAll "chan1" "msg1",
         PCall.reactionsRemoveAll "chan1" "msg1"] ≤ 1 := by
  decide

/-- Once reactions are recorded as removed, every further `close` issues
no platform call and only forces `active` to false. -/
theorem closeSeq_removed (rs : List (Option String)) (p : Paginator) (m : Message)
    (hm : p.message = some m) (hr : p.reactionsRemoved = true) :
    closeSeq rs p = .ret ((if rs = [] then p else { p with active := false }), []) := by
  induction rs generalizing p with
  | nil => simp [closeSeq]
  | cons r rs ih =>
      have hclose : close r p = .ret ({ p with active := false }, none, []) := by
        simp [close, hr]
      simp only [closeSeq, hclose]
      rw [ih ({ p with active := false }) hm hr]
      cases rs <;> simp

/-- Claim C8 (amended).  A sequence of `close` calls never panics on a
hosted message, re-issues the reaction-removal call on each close up to
and including the first successful removal and never afterwards (so at
most ONE removal call succeeds, but each failed attempt is retried by the
next close), and leaves `active == false` after every call. -/
theorem c8_close_removal_and_active (rs : List (Option String)) (p : Paginator)
    (m : Message) (hm : p.message = some m) (hr : p.reactionsRemoved = false) :
    ∃ q calls, closeSeq rs p = .ret (q, calls) ∧
      countRemovals calls = throughFirstSuccess rs ∧
      (rs = [] → q = p) ∧ (rs ≠ [] → q.active = false) := by
  induction rs generalizing p with
  | nil =>
      exact ⟨p, [], by simp [closeSeq, countRemovals, throughFirstSuccess]⟩
  | cons r rs ih =>
      cases r with
      | none =>
          have hclose : close none p =
              .ret ({ p with active := false, reactionsRemoved := true }, none,
                [PCall.reactionsRemoveAll p.channelID m.id]) := by
            simp [close, hr, hm]
          simp only [closeSeq, hclose]
          rw [closeSeq_removed rs ({ p with active := false, reactionsRemoved := true })
            m hm rfl]
          cases rs <;>
            exact ⟨_, _, rfl, by simp [countRemovals, throughFirstSuccess, isRemoveCall],
              by simp, fun _ => by simp⟩
      | some e =>
          have hclose : close (some e) p =
              .ret ({ p with active := false }, some (.platform e),
                [PCall.reactionsRemoveAll p.channelID m.id]) := by
            simp [close, hr, hm]
          simp only [closeSeq, hclose]
          obtain ⟨q, calls, hrun, hcount, hnil, hact⟩ :=
            ih ({ p with active := false }) hm hr
          rw [hrun]
          refine ⟨q, PCall.reactionsRemoveAll p.channelID m.id :: calls, rfl, ?_, by simp,
            fun _ => ?_⟩
          · simp [countRemovals, throughFirstSuccess, isRemoveCall] at hcount ⊢
            omega
          · cases rs with
            | nil =>
                rw [hnil rfl]
            | cons r2 rs2 =>
                exact hact (by simp)

/-- Claim C8 witness: the amended theorem over two failing responses on a
running paginator. -/
theorem c8_close_removal_and_active_witness :
    ∃ q calls,
      closeSeq [some "err1", some "err2"] (runningPag [embedB] 1) = .ret (q, calls) ∧
      countRemovals calls = throughFirstSuccess [some "err1", some "err2"] ∧
      ([some "err1", some "err2"] = ([] : List (Option String)) →
        q = runningPag [embedB] 1) ∧
      ([some "err1", some "err2"] ≠ ([] : List (Option String)) → q.active = false) :=
  c8_close_removal_and_active [some "err1", some "err2"] (runningPag [embedB] 1)
    ⟨"msg1"⟩ rfl rfl

/-- Claim C9 (counterexample).  Rendering pages `[A, B]` at index 0 stamps
the footer "1/2" on BOTH pages: page 1 — a page other than the current
index — does not stay unchanged. -/
theorem c9_render_touches_other_pages :
    (setPageNumber (runningPag [embedA, embedB] 0)).1.pages =
      [{ content := "A", footer := some ⟨"1/2"⟩ },
       { content := "B", footer := some ⟨"1/2"⟩ }] ∧
    ({ content := "B", footer := some ⟨"1/2"⟩ } : MessageEmbed) ≠ embedB := by
  decide

/-- Claim C9 (amended).  On a non-empty page list, rendering succeeds and
sets the footer of EVERY page to `"{index+1}/{len(pages)}"`, leaving every
page's remaining fields unchanged. -/
theorem c9_render_sets_all_footers (p : Paginator) (hne : p.pages.length ≠ 0) :
    (setPageNumber p).2 = none ∧
    ∀ k, k < p.pages.length →
      ((setPageNumber p).1.pages).get? k =
        (p.pages.get? k).map (fun e =>
          { content := e.content,
            footer := some ⟨footerText p.index p.pages.length⟩ }) := by
  refine ⟨by simp [setPageNumber, hne], fun k hk => ?_⟩
  simp [setPageNumber, hne, List.getElem?_map]
  cases p.pages[k]? <;> rfl

/-- Claim C9 witness: the amended theorem on pages `[A, B]` at index 0. -/
theorem c9_render_sets_all_footers_witness :
    (setPageNumber (runningPag [embedA, embedB] 0)).2 = none ∧
    ∀ k, k < (runningPag [embedA, embedB] 0).pages.length →
      ((setPageNumber (runningPag [embedA, embedB] 0)).1.pages).get? k =
        ((runningPag [embedA, embedB] 0).pages.get? k).map (fun e =>
          { content := e.content,
            footer := some ⟨footerText (runningPag [embedA, embedB] 0).index
              (runningPag [embedA, embedB] 0).pages.length⟩ }) :=
  c9_render_sets_all_footers (runningPag [embedA, embedB] 0) (by decide)

/-- Claim C10.  When the file exists (`os.Stat` succeeds) and is read
successfully, `GetConfig` returns nil whatever the YAML unmarshal outcome:
the unmarshal error is discarded, so a malformed configuration is
indistinguishable from a parsed one. -/
theorem c10_unmarshal_error_discarded (content : String)
    (marshalResult : Except String String) (writeErr : Option String)
    (ue1 ue2 : Option String) :
    GetConfig none (Except.ok content) marshalResult writeErr ue1 = none ∧
    GetConfig none (Except.ok content) marshalResult writeErr ue1 =
      GetConfig none (Except.ok content) marshalResult writeErr ue2 := by
  simp [GetConfig]
